import Mathlib

/-!
Shallow embedding of the rust-connected-services-reference repository
(service-a, service-b, service-c, service-d) together with proofs of the
specification claims about it.

The four Rust services are axum HTTP servers.  Their handler bodies are
embedded as pure Lean functions: the outside world (environment variables,
the HTTP responses of downstream dependencies, the current span context)
is passed in explicitly, and effects that matter to the claims (panics,
outbound HTTP calls, codec operations) are reflected in the return type.
-/

namespace ConnectedServices

/-! ## W3C traceparent codec

The services delegate carrier parsing/serialisation to the opentelemetry
`TraceContextPropagator`, which is not part of this repository's sources.
Modelled from the spec: §4.1 "TraceContext Codec" — `extract(carrier) ->
Option<TraceContext>` parses the `traceparent` value (version, 128-bit
trace id, 64-bit parent span id, flags byte, dash-separated lowercase
hex); malformed or missing input yields `none`; `inject(context)`
serialises the context back into a one-entry carrier. -/

/-- Value of a single lowercase hexadecimal digit (`0`-`9`, `a`-`f`). -/
def hexDigit (c : Char) : Option Nat :=
  if 48 ≤ c.toNat ∧ c.toNat ≤ 57 then some (c.toNat - 48)
  else if 97 ≤ c.toNat ∧ c.toNat ≤ 102 then some (c.toNat - 87)
  else none

def parseHexAux : List Char → Nat → Option Nat
  | [], acc => some acc
  | c :: rest, acc =>
    match hexDigit c with
    | some d => parseHexAux rest (acc * 16 + d)
    | none => none

/-- Parse a nonempty string of lowercase hex digits. -/
def parseHex (l : List Char) : Option Nat :=
  if l = [] then none else parseHexAux l 0

/-- The lowercase hex digit character for a value `d < 16`. -/
def hexChar (d : Nat) : Char :=
  if d < 10 then Char.ofNat (48 + d) else Char.ofNat (87 + d)

/-- Fixed-width lowercase hex rendering (`w` digits, big-endian). -/
def toHexPad : Nat → Nat → List Char
  | 0, _ => []
  | w + 1, n => toHexPad w (n / 16) ++ [hexChar (n % 16)]

/-- In-process trace context: 128-bit trace id, 64-bit parent span id,
sampling flag (spec §3). -/
structure TraceContext where
  trace_id : Nat
  parent_span_id : Nat
  sampled : Bool
deriving DecidableEq, Repr

/-- A carrier is a flat mapping from header name to string value. -/
abbrev Carrier := List (String × String)

def getHeader : Carrier → String → Option String
  | [], _ => none
  | (k, v) :: rest, key => if k = key then some v else getHeader rest key

/-- Split a character list on the dash separator. -/
def splitOnDash : List Char → List (List Char)
  | [] => [[]]
  | c :: rest =>
    if c = '-' then [] :: splitOnDash rest
    else
      match splitOnDash rest with
      | [] => [[c]]
      | g :: gs => (c :: g) :: gs

/-- Parse the payload of a `traceparent` header value. -/
def extractChars (l : List Char) : Option TraceContext :=
  match splitOnDash l with
  | [v, t, s, f] =>
    match parseHex v, parseHex t, parseHex s, parseHex f with
    | some vn, some tn, some sn, some fn =>
      if v.length = 2 ∧ vn ≠ 255 ∧ t.length = 32 ∧ tn ≠ 0 ∧
          s.length = 16 ∧ sn ≠ 0 ∧ f.length = 2 then
        some ⟨tn, sn, fn % 2 == 1⟩
      else none
    | _, _, _, _ => none
  | _ => none

/-- `extract(carrier)`: read the `traceparent` key and parse it; absence or
malformedness yields `none`, never an error (spec §4.1). -/
def extract (c : Carrier) : Option TraceContext :=
  match getHeader c "traceparent" with
  | none => none
  | some v => extractChars v.data

/-- Serialised `traceparent` value for a context. -/
def injectChars (ctx : TraceContext) : List Char :=
  ['0', '0', '-'] ++ toHexPad 32 ctx.trace_id ++ ['-'] ++
    toHexPad 16 ctx.parent_span_id ++ ['-'] ++
    (if ctx.sampled then ['0', '1'] else ['0', '0'])

/-- `inject(context)`: a one-entry carrier holding the serialised context. -/
def inject (ctx : TraceContext) : Carrier :=
  [("traceparent", String.mk (injectChars ctx))]

/-! ## HTTP statuses and the outside world -/

abbrev Status := Nat

def GATEWAY_TIMEOUT : Status := 504
def BAD_REQUEST : Status := 400
def INTERNAL_SERVER_ERROR : Status := 500

/-- `reqwest::StatusCode::is_success`: the 2xx range. -/
def isSuccess (s : Status) : Bool := decide (200 ≤ s) && decide (s < 300)

/-- What one outbound HTTP call can observe: a transport-level failure
(`reqwest::Error` from `send()`), or a response with a status code and,
for the body, the result of deserialising it into the expected model
(`none` = `r.json()` failed). -/
inductive HttpResponse (M : Type) where
  | transportError
  | response (status : Status) (body : Option M)
deriving DecidableEq

/-- Result of running a handler body: a Rust panic, or a value. -/
inductive RunResult (α : Type) where
  | panic (msg : String)
  | done (v : α)
deriving DecidableEq

instance {ε α : Type} [DecidableEq ε] [DecidableEq α] : DecidableEq (Except ε α)
  | .error e, .error f =>
    if h : e = f then .isTrue (by rw [h])
    else .isFalse (by intro c; injection c; exact h ‹_›)
  | .error _, .ok _ => .isFalse (by intro h; cases h)
  | .ok _, .error _ => .isFalse (by intro h; cases h)
  | .ok a, .ok b =>
    if h : a = b then .isTrue (by rw [h])
    else .isFalse (by intro c; injection c; exact h ‹_›)

/-- The process environment (`std::env::var`). -/
abbrev Env := String → Option String

/-! ## Response models (service-b `main.rs` and service-d `models.rs`).
`DateTime<Utc>` values are modelled as opaque `Nat` timestamps and `f64`
temperatures as opaque `Int`s; no claim inspects their arithmetic. -/

structure ServiceAModel where
  key_one : String
  key_two : String
deriving DecidableEq, Repr

structure ServiceCModel where
  key_time : Nat
deriving DecidableEq, Repr

structure ExternalModel where
  key_one : String
  key_two : String
  key_time : Nat
deriving DecidableEq, Repr

structure HealthCheck where
  status : String
deriving DecidableEq, Repr

structure WeatherApiLocationResponse where
  name : String
  region : String
deriving DecidableEq, Repr

structure WeatherApiCurrentResponse where
  temp_c : Int
  temp_f : Int
deriving DecidableEq, Repr

structure WeatherApiResponse where
  location : WeatherApiLocationResponse
  current : WeatherApiCurrentResponse
deriving DecidableEq, Repr

structure WeatherResponse where
  city : String
  state : String
  celcius : Int
  farenheight : Int
deriving DecidableEq, Repr

/-- `impl From<WeatherApiResponse> for WeatherResponse` (models.rs). -/
def WeatherResponse.ofApi (r : WeatherApiResponse) : WeatherResponse :=
  { celcius := r.current.temp_c
    farenheight := r.current.temp_f
    city := r.location.name
    state := r.location.region }

/-! ## service-b: the aggregator

`handler` calls `get_service_a` then `get_service_c` (each short-circuits
with `?`) and composes `ExternalModel` from the two results.  Each helper
reads its base URL from the environment with `.expect(..)` (a panic when
missing), takes the current span context (`Span::current().context()`,
modelled as a `SpanCtx` parameter per call site), injects it into the
outbound headers via the propagator, issues the request, and classifies
the response.  The embedding returns the list of codec operations
performed, the list of outbound URLs issued, and the handler's
`Result<_, StatusCode>`. -/

/-- The span context `Span::current().context()` hands to `inject_context`;
opaque to the claims, so modelled as a bare identifier. -/
abbrev SpanCtx := Nat

/-- The `if let Some(s) = passed_value { .. } else { <default> }` idiom all
handlers use for their optional query parameter. -/
def prefix_or_default (q : Option String) (d : String) : String :=
  match q with
  | some s => s
  | none => d

/-- One operation performed against the trace-context codec. -/
inductive CodecOp where
  | extractOp (header : Option String)
  | injectOp (ctx : SpanCtx)
deriving DecidableEq, Repr

/-- Response classification of `get_service_a` (main.rs lines 202-228):
2xx with parseable body → the parsed model; 2xx with unparseable body →
400; 504 → the fixed "Timed out" fallback model; other non-2xx → 400;
transport error → 500. -/
def classifyA (resp : HttpResponse ServiceAModel) : Except Status ServiceAModel :=
  match resp with
  | .transportError => .error INTERNAL_SERVER_ERROR
  | .response status body =>
    if isSuccess status then
      match body with
      | some m => .ok m
      | none => .error BAD_REQUEST
    else if status = GATEWAY_TIMEOUT then
      .ok ⟨"Timed out", "Timed out"⟩
    else
      .error BAD_REQUEST

/-- `get_service_a` (service-b main.rs lines 170-229). -/
def get_service_a (envv : Env) (ctx : SpanCtx) (q : Option String)
    (resp : HttpResponse ServiceAModel) :
    RunResult (List CodecOp × List String × Except Status ServiceAModel) :=
  match envv "SERVICE_A_URL" with
  | none => .panic "SERVICE_A_URL Must be Set"
  | some host =>
    let pfx := prefix_or_default q "Unknown"
    let url := host ++ "/route?p=" ++ pfx
    .done ([CodecOp.injectOp ctx], [url], classifyA resp)

/-- Response classification of `get_service_c` (main.rs lines 147-167):
no gateway-timeout fallback — every non-2xx status is a 400 failure. -/
def classifyC (resp : HttpResponse ServiceCModel) : Except Status ServiceCModel :=
  match resp with
  | .transportError => .error INTERNAL_SERVER_ERROR
  | .response status body =>
    if isSuccess status then
      match body with
      | some m => .ok m
      | none => .error BAD_REQUEST
    else
      .error BAD_REQUEST

/-- `get_service_c` (service-b main.rs lines 125-168). -/
def get_service_c (envv : Env) (ctx : SpanCtx)
    (resp : HttpResponse ServiceCModel) :
    RunResult (List CodecOp × List String × Except Status ServiceCModel) :=
  match envv "SERVICE_C_URL" with
  | none => .panic "SERVICE_C_URL Must be Set"
  | some host =>
    let url := host ++ "/time"
    .done ([CodecOp.injectOp ctx], [url], classifyC resp)

/-- service-b `handler` (main.rs lines 110-123): `get_service_a(..)?` then
`get_service_c(..)?`, then field-level composition into `ExternalModel`. -/
def handlerB (envv : Env) (ctxA ctxC : SpanCtx) (q : Option String)
    (respA : HttpResponse ServiceAModel) (respC : HttpResponse ServiceCModel) :
    RunResult (List CodecOp × List String × Except Status ExternalModel) :=
  match get_service_a envv ctxA q respA with
  | .panic m => .panic m
  | .done (opsA, urlsA, resA) =>
    match resA with
    | .error e => .done (opsA, urlsA, .error e)
    | .ok ma =>
      match get_service_c envv ctxC respC with
      | .panic m => .panic m
      | .done (opsC, urlsC, resC) =>
        match resC with
        | .error e => .done (opsA ++ opsC, urlsA ++ urlsC, .error e)
        | .ok mc =>
          .done (opsA ++ opsC, urlsA ++ urlsC,
            .ok ⟨ma.key_one, ma.key_two, mc.key_time⟩)

/-- Codec operations a run of the service-b handler performed. -/
def opsOf {α : Type} : RunResult (List CodecOp × List String × α) → List CodecOp
  | .panic _ => []
  | .done (ops, _, _) => ops

/-- Outbound URLs a run of the service-b handler issued. -/
def urlsOf {α : Type} : RunResult (List CodecOp × List String × α) → List String
  | .panic _ => []
  | .done (_, urls, _) => urls

/-- Number of inbound-extraction codec operations in a trace. -/
def countExtracts : List CodecOp → Nat
  | [] => 0
  | .extractOp _ :: rest => countExtracts rest + 1
  | .injectOp _ :: rest => countExtracts rest

/-- The handler's `Result<_, StatusCode>`, when the run did not panic. -/
def resultOf {α : Type} :
    RunResult (List CodecOp × List String × Except Status α) → Option (Except Status α)
  | .panic _ => none
  | .done (_, _, r) => some r

/-- Same projection for runs that track a single outbound URL. -/
def resultOfD {α : Type} :
    RunResult (String × Except Status α) → Option (Except Status α)
  | .panic _ => none
  | .done (_, r) => some r

/-- `tracing_enabled.parse::<bool>()` with the source's `if let Ok(b) .. else
false`: only the exact string "true" turns the flag on. -/
def parse_bool_flag (s : String) : Bool := s == "true"

/-- service-b `main` up to serving (main.rs lines 54-107): the required
environment reads at startup, in source order.  Returns the tracing flag. -/
def startup_service_b (envv : Env) : RunResult Bool :=
  match envv "DD_TRACING_ENABLED" with
  | none => .panic "DD_TRACING_ENABLED is required"
  | some te =>
    let flag := parse_bool_flag te
    if flag then
      match envv "AGENT_ADDRESS" with
      | none => .panic "AGENT_ADDRESS is required"
      | some _ =>
        match envv "BIND_ADDRESS" with
        | none => .panic "BIND_ADDRESS is required"
        | some _ => .done flag
    else
      match envv "BIND_ADDRESS" with
      | none => .panic "BIND_ADDRESS is required"
      | some _ => .done flag

/-! ## service-a, service-c: the leaf handlers

When APM is enabled each handler builds the extraction carrier with
`headers.get("traceparent").unwrap()` — a panic when the header is
absent — then extracts a parent context (discarded into `set_parent`,
with no failure path).  The business payload does not depend on the
extraction result. -/

/-- service-a `handler` (main.rs lines 90-124). -/
def handlerA (has_apm : Bool) (tpHeader : Option String) (p : Option String) :
    RunResult (Except Status ServiceAModel) :=
  let body : RunResult (Except Status ServiceAModel) :=
    let pfx := prefix_or_default p "Unknown"
    .done (.ok ⟨"(" ++ pfx ++ ")Field 1", "(" ++ pfx ++ ")Field 2"⟩)
  if has_apm then
    match tpHeader with
    | none => .panic "called Option::unwrap on a None value"
    | some tp =>
      let _context := extract [("traceparent", tp)]
      body
  else body

/-- service-c `handler` (main.rs lines 84-107); `Utc::now()` is the `now`
parameter. -/
def handlerC (has_apm : Bool) (tpHeader : Option String) (now : Nat) :
    RunResult (Except Status ServiceCModel) :=
  let m : ServiceCModel := ⟨now⟩
  if has_apm then
    match tpHeader with
    | none => .panic "called Option::unwrap on a None value"
    | some tp =>
      let _context := extract [("traceparent", tp)]
      .done (.ok m)
  else .done (.ok m)

/-! ## service-d: the weather caller -/

/-- Response classification of service-d `handler` (main.rs lines 138-158):
identical to `classifyC` but producing the converted `WeatherResponse`. -/
def classifyD (resp : HttpResponse WeatherApiResponse) : Except Status WeatherResponse :=
  match resp with
  | .transportError => .error INTERNAL_SERVER_ERROR
  | .response status body =>
    if isSuccess status then
      match body with
      | some m => .ok (WeatherResponse.ofApi m)
      | none => .error BAD_REQUEST
    else
      .error BAD_REQUEST

/-- The part of service-d `handler` after the APM block (main.rs lines
95-158): default zip, the two environment reads, URL build, outbound call
with injected context, classification. -/
def handlerD_core (envv : Env) (zip : Option String)
    (resp : HttpResponse WeatherApiResponse) :
    RunResult (String × Except Status WeatherResponse) :=
  let pfx := prefix_or_default zip "76262"
  match envv "WEATHER_API_URL" with
  | none => .panic "WEATHER_API_URL Must be Set"
  | some host =>
    match envv "WEATHER_API_KEY" with
    | none => .panic "WEATHER_API_KEY Must be set"
    | some key =>
      let url := host ++ "/current.json?q=" ++ pfx ++ "&key=" ++ key
      .done (url, classifyD resp)

/-- service-d `handler` (main.rs lines 77-159). -/
def handlerD (envv : Env) (has_apm : Bool) (tpHeader : Option String)
    (zip : Option String) (resp : HttpResponse WeatherApiResponse) :
    RunResult (String × Except Status WeatherResponse) :=
  if has_apm then
    match tpHeader with
    | none => .panic "called Option::unwrap on a None value"
    | some tp =>
      let _context := extract [("traceparent", tp)]
      handlerD_core envv zip resp
  else handlerD_core envv zip resp

/-! ## Routing tables and the health handler -/

/-- The shared `health` handler, identical in all four services. -/
def health : Except Status HealthCheck := .ok ⟨"Healthy"⟩

/-- First-match route lookup, as in `Router::new().route(..)`. -/
def lookupRoute : List (String × String) → String → Option String
  | [], _ => none
  | (path, h) :: rest, key => if path = key then some h else lookupRoute rest key

/-- service-a routes (main.rs lines 79-82). -/
def routes_service_a : List (String × String) := [("/route", "handler"), ("/health", "health")]

/-- service-b routes (main.rs lines 99-102). -/
def routes_service_b : List (String × String) := [("/", "handler"), ("/health", "health")]

/-- service-c routes (main.rs lines 73-76): the health handler is mounted
at `/`, and no route is registered at `/health`. -/
def routes_service_c : List (String × String) := [("/time", "handler"), ("/", "health")]

/-- service-d routes (main.rs lines 66-69). -/
def routes_service_d : List (String × String) := [("/weather", "handler"), ("/health", "health")]

/-! ## Concrete environments and inputs used by witnesses -/

/-- A fully provisioned service-b environment. -/
def envFull : Env := fun k =>
  if k = "DD_TRACING_ENABLED" then some "false"
  else if k = "BIND_ADDRESS" then some "0.0.0.0:3000"
  else if k = "SERVICE_A_URL" then some "http://service-a:3000"
  else if k = "SERVICE_C_URL" then some "http://service-c:3000"
  else if k = "WEATHER_API_URL" then some "http://api.weatherapi.com/v1"
  else if k = "WEATHER_API_KEY" then some "key123"
  else none

/-- A service-b environment that can start (tracing flag and bind address
present) but has no downstream base URL configured. -/
def envNoDownstream : Env := fun k =>
  if k = "DD_TRACING_ENABLED" then some "false"
  else if k = "BIND_ADDRESS" then some "0.0.0.0:3000"
  else none

/-- A successful service-a response body. -/
def okBodyA : ServiceAModel := ⟨"(Unknown)Field 1", "(Unknown)Field 2"⟩

/-- A successful service-c response body. -/
def okBodyC : ServiceCModel := ⟨1700000000⟩

/-! ## Codec lemmas -/

theorem hexDigit_lt {c : Char} {d : Nat} (h : hexDigit c = some d) : d < 16 := by
  unfold hexDigit at h
  split at h
  · injection h with h; omega
  · split at h
    · injection h with h; omega
    · exact absurd h (by simp)

theorem hexDigit_hexChar : ∀ d < 16, hexDigit (hexChar d) = some d := by decide

theorem hexChar_ne_dash : ∀ d < 16, hexChar d ≠ '-' := by decide

theorem toHexPad_length (w n : Nat) : (toHexPad w n).length = w := by
  induction w generalizing n with
  | zero => rfl
  | succ w ih => simp [toHexPad, ih]

theorem toHexPad_no_dash (w n : Nat) : '-' ∉ toHexPad w n := by
  induction w generalizing n with
  | zero => simp [toHexPad]
  | succ w ih =>
    simp only [toHexPad, List.mem_append, List.mem_singleton]
    rintro (h | h)
    · exact ih _ h
    · exact hexChar_ne_dash (n % 16) (Nat.mod_lt n (by omega)) h.symm

theorem parseHexAux_append (l₁ l₂ : List Char) (acc : Nat) :
    parseHexAux (l₁ ++ l₂) acc =
      match parseHexAux l₁ acc with
      | some a => parseHexAux l₂ a
      | none => none := by
  induction l₁ generalizing acc with
  | nil => rfl
  | cons c rest ih =>
    simp only [List.cons_append, parseHexAux]
    cases hexDigit c with
    | none => rfl
    | some d => exact ih _

theorem parseHexAux_toHexPad {w n : Nat} (h : n < 16 ^ w) (acc : Nat) :
    parseHexAux (toHexPad w n) acc = some (acc * 16 ^ w + n) := by
  induction w generalizing n acc with
  | zero =>
    have : n = 0 := by simpa using h
    simp [this, toHexPad, parseHexAux]
  | succ w ih =>
    have hdiv : n / 16 < 16 ^ w := by
      rw [Nat.div_lt_iff_lt_mul (by omega)]
      calc n < 16 ^ (w + 1) := h
        _ = 16 ^ w * 16 := pow_succ 16 w
    rw [toHexPad, parseHexAux_append, ih hdiv]
    simp only [parseHexAux, hexDigit_hexChar (n % 16) (Nat.mod_lt n (by omega))]
    congr 1
    calc (acc * 16 ^ w + n / 16) * 16 + n % 16
        = acc * (16 ^ w * 16) + (16 * (n / 16) + n % 16) := by ring
      _ = acc * 16 ^ (w + 1) + n := by rw [Nat.div_add_mod, pow_succ]

theorem parseHex_toHexPad {w n : Nat} (hw : 0 < w) (h : n < 16 ^ w) :
    parseHex (toHexPad w n) = some n := by
  have hne : toHexPad w n ≠ [] := by
    intro e
    have := toHexPad_length w n
    rw [e] at this
    simp at this
    omega
  rw [parseHex, if_neg hne, parseHexAux_toHexPad h]
  simp

theorem parseHexAux_lt {l : List Char} {acc n : Nat}
    (h : parseHexAux l acc = some n) : n < (acc + 1) * 16 ^ l.length := by
  induction l generalizing acc with
  | nil =>
    injection h with h
    simp [← h]
  | cons c rest ih =>
    simp only [parseHexAux] at h
    cases hd : hexDigit c with
    | none => rw [hd] at h; exact absurd h (by simp)
    | some d =>
      rw [hd] at h
      have hdlt := hexDigit_lt hd
      have hn := ih h
      calc n < (acc * 16 + d + 1) * 16 ^ rest.length := hn
        _ ≤ ((acc + 1) * 16) * 16 ^ rest.length := by
            exact Nat.mul_le_mul_right _ (by omega)
        _ = (acc + 1) * 16 ^ (c :: rest).length := by
            simp [List.length_cons, pow_succ]; ring

theorem parseHex_lt {l : List Char} {n : Nat} (h : parseHex l = some n) :
    n < 16 ^ l.length := by
  rw [parseHex] at h
  split at h
  · exact absurd h (by simp)
  · have := parseHexAux_lt h
    simpa using this

theorem splitOnDash_cons (c : Char) (rest : List Char) :
    splitOnDash (c :: rest) =
      if c = '-' then [] :: splitOnDash rest
      else
        match splitOnDash rest with
        | [] => [[c]]
        | g :: gs => (c :: g) :: gs := rfl

theorem splitOnDash_no_dash {l : List Char} (h : '-' ∉ l) : splitOnDash l = [l] := by
  induction l with
  | nil => rfl
  | cons c rest ih =>
    have hc : ¬(c = '-') := by
      intro e
      exact h (by rw [e]; exact List.mem_cons_self _ _)
    have hrest : '-' ∉ rest := fun m => h (List.mem_cons_of_mem c m)
    rw [splitOnDash_cons, if_neg hc, ih hrest]

theorem splitOnDash_append {xs ys : List Char} (h : '-' ∉ xs) :
    splitOnDash (xs ++ '-' :: ys) = xs :: splitOnDash ys := by
  induction xs with
  | nil => simp [splitOnDash_cons]
  | cons c rest ih =>
    have hc : ¬(c = '-') := by
      intro e
      exact h (by rw [e]; exact List.mem_cons_self _ _)
    have hrest : '-' ∉ rest := fun m => h (List.mem_cons_of_mem c m)
    rw [List.cons_append, splitOnDash_cons, if_neg hc, ih hrest]

/-- Computation rule for `extractChars` once the split and the four hex
parses are known. -/
theorem extractChars_eq {v t s f : List Char} {vn tn sn fn : Nat}
    (hv : parseHex v = some vn) (ht : parseHex t = some tn)
    (hs : parseHex s = some sn) (hf : parseHex f = some fn)
    {l : List Char} (hl : splitOnDash l = [v, t, s, f]) :
    extractChars l =
      if v.length = 2 ∧ vn ≠ 255 ∧ t.length = 32 ∧ tn ≠ 0 ∧
          s.length = 16 ∧ sn ≠ 0 ∧ f.length = 2 then
        some ⟨tn, sn, fn % 2 == 1⟩
      else none := by
  rw [extractChars, hl]
  show (match parseHex v, parseHex t, parseHex s, parseHex f with
    | some vn, some tn, some sn, some fn =>
      if v.length = 2 ∧ vn ≠ 255 ∧ t.length = 32 ∧ tn ≠ 0 ∧
          s.length = 16 ∧ sn ≠ 0 ∧ f.length = 2 then
        some (⟨tn, sn, fn % 2 == 1⟩ : TraceContext)
      else none
    | _, _, _, _ => none) = _
  rw [hv, ht, hs, hf]

/-- `extract` on a one-entry carrier reads exactly its `traceparent` value. -/
theorem extract_single (l : List Char) :
    extract [("traceparent", String.mk l)] = extractChars l := by
  rw [extract]
  simp [getHeader]

/-- Re-extraction of an injected context recovers the context exactly,
for contexts whose ids fit their wire widths and are nonzero. -/
theorem extract_inject (ctx : TraceContext)
    (ht : ctx.trace_id < 16 ^ 32) (ht0 : ctx.trace_id ≠ 0)
    (hs : ctx.parent_span_id < 16 ^ 16) (hs0 : ctx.parent_span_id ≠ 0) :
    extract (inject ctx) = some ctx := by
  obtain ⟨tid, sid, flag⟩ := ctx
  simp only at ht ht0 hs hs0
  have hT : parseHex (toHexPad 32 tid) = some tid :=
    parseHex_toHexPad (by omega) ht
  have hS : parseHex (toHexPad 16 sid) = some sid :=
    parseHex_toHexPad (by omega) hs
  have main : ∀ (F : List Char) (fn : Nat), parseHex F = some fn →
      F.length = 2 → '-' ∉ F →
      extractChars (['0', '0', '-'] ++ toHexPad 32 tid ++ ['-'] ++
          toHexPad 16 sid ++ ['-'] ++ F) = some ⟨tid, sid, fn % 2 == 1⟩ := by
    intro F fn hF hFlen hFd
    have e1 : (['0', '0', '-'] : List Char) ++ toHexPad 32 tid ++ ['-'] ++
        toHexPad 16 sid ++ ['-'] ++ F =
        ['0', '0'] ++ '-' :: (toHexPad 32 tid ++ '-' ::
          (toHexPad 16 sid ++ '-' :: F)) := by
      simp [List.append_assoc]
    have hsplit : splitOnDash (['0', '0', '-'] ++ toHexPad 32 tid ++ ['-'] ++
        toHexPad 16 sid ++ ['-'] ++ F) =
        [['0', '0'], toHexPad 32 tid, toHexPad 16 sid, F] := by
      rw [e1, splitOnDash_append (by decide),
        splitOnDash_append (toHexPad_no_dash 32 tid),
        splitOnDash_append (toHexPad_no_dash 16 sid),
        splitOnDash_no_dash hFd]
    have hV : parseHex ['0', '0'] = some 0 := by decide
    rw [extractChars_eq hV hT hS hF hsplit,
      if_pos ⟨by decide, by decide, toHexPad_length 32 tid, ht0,
        toHexPad_length 16 sid, hs0, hFlen⟩]
  cases flag with
  | false =>
    have e : injectChars ⟨tid, sid, false⟩ =
        ['0', '0', '-'] ++ toHexPad 32 tid ++ ['-'] ++
          toHexPad 16 sid ++ ['-'] ++ ['0', '0'] := by
      simp [injectChars]
    rw [inject, extract_single, e,
      main ['0', '0'] 0 (by decide) (by decide) (by decide)]
    rfl
  | true =>
    have e : injectChars ⟨tid, sid, true⟩ =
        ['0', '0', '-'] ++ toHexPad 32 tid ++ ['-'] ++
          toHexPad 16 sid ++ ['-'] ++ ['0', '1'] := by
      simp [injectChars]
    rw [inject, extract_single, e,
      main ['0', '1'] 1 (by decide) (by decide) (by decide)]
    rfl

/-- Any context produced by `extract` has ids that fit their wire widths
and are nonzero. -/
theorem extract_bounds {c : Carrier} {ctx : TraceContext}
    (h : extract c = some ctx) :
    ctx.trace_id < 16 ^ 32 ∧ ctx.trace_id ≠ 0 ∧
      ctx.parent_span_id < 16 ^ 16 ∧ ctx.parent_span_id ≠ 0 := by
  rw [extract] at h
  split at h
  · exact absurd h (by simp)
  · rename_i v
    rw [extractChars] at h
    split at h
    · rename_i vp tp sp fp
      split at h
      · rename_i vn tn sn fn hv ht hs hf
        split at h
        · rename_i hcond
          obtain ⟨h1, h2, h3, h4, h5, h6, h7⟩ := hcond
          injection h with h
          have htb := parseHex_lt ht
          have hsb := parseHex_lt hs
          rw [h3] at htb
          rw [h5] at hsb
          rw [← h]
          exact ⟨htb, h4, hsb, h6⟩
        · exact absurd h (by simp)
      · exact absurd h (by simp)
    · exact absurd h (by simp)

/-- C9: for every well-formed `traceparent` carrier (one that `extract`
parses into a context), injecting the extracted context produces a
carrier semantically equivalent to the input: it parses back to the same
trace id, the same parent span id and the same sampled flag. -/
theorem c9_extract_inject_roundtrip (c : Carrier) (ctx : TraceContext)
    (h : extract c = some ctx) : extract (inject ctx) = some ctx := by
  obtain ⟨h1, h2, h3, h4⟩ := extract_bounds h
  exact extract_inject ctx h1 h2 h3 h4

/-- Witness for C9 at a concrete well-formed carrier. -/
theorem c9_extract_inject_roundtrip_witness :
    extract (inject ⟨10, 11, true⟩) = some ⟨10, 11, true⟩ :=
  c9_extract_inject_roundtrip
    [("traceparent", "00-0000000000000000000000000000000a-000000000000000b-01")]
    ⟨10, 11, true⟩ (by decide)

/-- C1 (code bug): the spec requires that an absent or malformed
`traceparent` header never aborts the request, but with APM enabled the
service-a and service-c handlers call `.unwrap()` on the absent header
and panic; a malformed (present) header indeed extracts no context and
the request completes, and with APM disabled an absent header also
completes. -/
theorem c1_absent_traceparent_panics :
    handlerA true none (some "90210") = .panic "called Option::unwrap on a None value" ∧
    handlerC true none 1700000000 = .panic "called Option::unwrap on a None value" ∧
    extract [("traceparent", "not-a-traceparent")] = none ∧
    handlerA true (some "not-a-traceparent") (some "90210") =
      .done (.ok ⟨"(90210)Field 1", "(90210)Field 2"⟩) ∧
    extract [] = none ∧
    handlerA false none (some "90210") =
      .done (.ok ⟨"(90210)Field 1", "(90210)Field 2"⟩) := by
  refine ⟨rfl, rfl, by decide, ?_, rfl, rfl⟩
  rfl

/-- C8 counterexample: service-c registers no route at `/health` (its
health handler is mounted at `/`), so a GET to `/health` on service-c is
not served by the health handler. -/
theorem c8_counterexample : lookupRoute routes_service_c "/health" = none := by
  decide

/-- C8 amended: services a, b and d serve the health handler at
`/health`; service-c mounts it at `/` instead, with no `/health` route;
the handler itself is dependency-free and returns
`{"status": "Healthy"}` (status 200) everywhere. -/
theorem c8_health_routes :
    lookupRoute routes_service_a "/health" = some "health" ∧
    lookupRoute routes_service_b "/health" = some "health" ∧
    lookupRoute routes_service_d "/health" = some "health" ∧
    lookupRoute routes_service_c "/health" = none ∧
    lookupRoute routes_service_c "/" = some "health" ∧
    health = .ok ⟨"Healthy"⟩ := by
  refine ⟨by decide, by decide, by decide, by decide, by decide, rfl⟩

/-! ## Aggregator run lemmas -/

/-- When the service-a call classifies as a failure, the aggregator stops
there: one injection, one outbound URL, service-a's error. -/
theorem handlerB_a_error {envv : Env} {ctxA ctxC : SpanCtx} {q : Option String}
    {respA : HttpResponse ServiceAModel} {respC : HttpResponse ServiceCModel}
    {hostA : String} {e : Status}
    (hA : envv "SERVICE_A_URL" = some hostA) (hf : classifyA respA = .error e) :
    handlerB envv ctxA ctxC q respA respC =
      .done ([CodecOp.injectOp ctxA],
        [hostA ++ "/route?p=" ++ prefix_or_default q "Unknown"], .error e) := by
  simp only [handlerB, get_service_a, hA, hf]

/-- When service-a succeeds (or falls back) and service-c classifies as a
failure, the aggregate fails with service-c's error. -/
theorem handlerB_c_error {envv : Env} {ctxA ctxC : SpanCtx} {q : Option String}
    {respA : HttpResponse ServiceAModel} {respC : HttpResponse ServiceCModel}
    {hostA hostC : String} {ma : ServiceAModel} {e : Status}
    (hA : envv "SERVICE_A_URL" = some hostA) (hC : envv "SERVICE_C_URL" = some hostC)
    (ha : classifyA respA = .ok ma) (hc : classifyC respC = .error e) :
    handlerB envv ctxA ctxC q respA respC =
      .done ([CodecOp.injectOp ctxA, CodecOp.injectOp ctxC],
        [hostA ++ "/route?p=" ++ prefix_or_default q "Unknown", hostC ++ "/time"],
        .error e) := by
  simp only [handlerB, get_service_a, get_service_c, hA, hC, ha, hc]
  rfl

/-- When both calls classify as success the aggregate composes the
external model from service-a's fields and service-c's timestamp. -/
theorem handlerB_ok {envv : Env} {ctxA ctxC : SpanCtx} {q : Option String}
    {respA : HttpResponse ServiceAModel} {respC : HttpResponse ServiceCModel}
    {hostA hostC : String} {ma : ServiceAModel} {mc : ServiceCModel}
    (hA : envv "SERVICE_A_URL" = some hostA) (hC : envv "SERVICE_C_URL" = some hostC)
    (ha : classifyA respA = .ok ma) (hc : classifyC respC = .ok mc) :
    handlerB envv ctxA ctxC q respA respC =
      .done ([CodecOp.injectOp ctxA, CodecOp.injectOp ctxC],
        [hostA ++ "/route?p=" ++ prefix_or_default q "Unknown", hostC ++ "/time"],
        .ok ⟨ma.key_one, ma.key_two, mc.key_time⟩) := by
  simp only [handlerB, get_service_a, get_service_c, hA, hC, ha, hc]
  rfl

/-- C5 counterexample: on a fully provisioned aggregate request with both
dependencies healthy, the service-b handler performs zero codec
extractions of the inbound carrier, not the one the claim requires. -/
theorem c5_counterexample :
    countExtracts (opsOf (handlerB envFull 1 2 none
      (.response 200 (some okBodyA)) (.response 200 (some okBodyC)))) = 0 ∧
    countExtracts (opsOf (handlerB envFull 1 2 none
      (.response 200 (some okBodyA)) (.response 200 (some okBodyC)))) ≠ 1 := by
  decide

/-- C5 amended: the service-b handler never extracts the inbound trace
context via the codec; the only codec operations of a request are one
injection per issued downstream call, each injecting the span context
current at that call site (`Span::current().context()` inside
`get_service_a` resp. `get_service_c`), not a single extracted inbound
context. -/
theorem c5_no_inbound_extraction (envv : Env) (ctxA ctxC : SpanCtx)
    (q : Option String) (respA : HttpResponse ServiceAModel)
    (respC : HttpResponse ServiceCModel) :
    countExtracts (opsOf (handlerB envv ctxA ctxC q respA respC)) = 0 ∧
    (opsOf (handlerB envv ctxA ctxC q respA respC) = [] ∨
      opsOf (handlerB envv ctxA ctxC q respA respC) = [CodecOp.injectOp ctxA] ∨
      opsOf (handlerB envv ctxA ctxC q respA respC) =
        [CodecOp.injectOp ctxA, CodecOp.injectOp ctxC]) := by
  cases hA : envv "SERVICE_A_URL" with
  | none => simp [handlerB, get_service_a, hA, opsOf, countExtracts]
  | some hostA =>
    cases hca : classifyA respA with
    | error e => simp [handlerB, get_service_a, hA, hca, opsOf, countExtracts]
    | ok ma =>
      cases hC : envv "SERVICE_C_URL" with
      | none =>
        simp [handlerB, get_service_a, get_service_c, hA, hca, hC, opsOf, countExtracts]
      | some hostC =>
        cases hcc : classifyC respC with
        | error e =>
          simp [handlerB, get_service_a, get_service_c, hA, hca, hC, hcc,
            opsOf, countExtracts]
        | ok mc =>
          simp [handlerB, get_service_a, get_service_c, hA, hca, hC, hcc,
            opsOf, countExtracts]

/-- C10: the downstream calls are sequential and short-circuiting — when
the service-a call classifies as a failure, the run issues only
service-a's URL (the service-c call is never made) and the whole run,
error response included, is identical for every behavior of service-c. -/
theorem c10_short_circuit (envv : Env) (ctxA ctxC ctxC' : SpanCtx)
    (q : Option String) (respA : HttpResponse ServiceAModel)
    (respC respC' : HttpResponse ServiceCModel) (hostA : String) (e : Status)
    (hA : envv "SERVICE_A_URL" = some hostA) (hf : classifyA respA = .error e) :
    urlsOf (handlerB envv ctxA ctxC q respA respC) =
      [hostA ++ "/route?p=" ++ prefix_or_default q "Unknown"] ∧
    resultOf (handlerB envv ctxA ctxC q respA respC) = some (.error e) ∧
    handlerB envv ctxA ctxC q respA respC = handlerB envv ctxA ctxC' q respA respC' := by
  rw [handlerB_a_error hA hf, handlerB_a_error hA hf]
  exact ⟨rfl, rfl, rfl⟩

/-- Witness for C10: service-a answers 500, service-c's behavior differs
in the two compared runs. -/
theorem c10_short_circuit_witness :
    urlsOf (handlerB envFull 1 2 none (.response 500 none) .transportError) =
      ["http://service-a:3000/route?p=Unknown"] ∧
    resultOf (handlerB envFull 1 2 none (.response 500 none) .transportError) =
      some (.error BAD_REQUEST) ∧
    handlerB envFull 1 2 none (.response 500 none) .transportError =
      handlerB envFull 1 3 none (.response 500 none) (.response 200 (some okBodyC)) :=
  c10_short_circuit envFull 1 2 3 none (.response 500 none) .transportError
    (.response 200 (some okBodyC)) "http://service-a:3000" BAD_REQUEST
    (by decide) (by decide)

/-- C2: the aggregate request succeeds exactly when every invoked
downstream call classifies as success (a 504 from service-a counts as
success via its fallback); any failing call makes the aggregate return
that call's error, and by the shape of the result type no partial
response exists. -/
theorem c2_merge_policy (envv : Env) (ctxA ctxC : SpanCtx) (q : Option String)
    (respA : HttpResponse ServiceAModel) (respC : HttpResponse ServiceCModel)
    (hostA hostC : String)
    (hA : envv "SERVICE_A_URL" = some hostA) (hC : envv "SERVICE_C_URL" = some hostC) :
    ((∃ m, resultOf (handlerB envv ctxA ctxC q respA respC) = some (Except.ok m)) ↔
      (∃ ma, classifyA respA = Except.ok ma) ∧ (∃ mc, classifyC respC = Except.ok mc)) ∧
    (∀ e, classifyA respA = Except.error e →
      resultOf (handlerB envv ctxA ctxC q respA respC) = some (Except.error e)) ∧
    (∀ ma e, classifyA respA = Except.ok ma → classifyC respC = Except.error e →
      resultOf (handlerB envv ctxA ctxC q respA respC) = some (Except.error e)) := by
  refine ⟨?_, ?_, ?_⟩
  · cases hca : classifyA respA with
    | error e => rw [handlerB_a_error hA hca]; simp [resultOf]
    | ok ma =>
      cases hcc : classifyC respC with
      | error e => rw [handlerB_c_error hA hC hca hcc]; simp [resultOf]
      | ok mc => rw [handlerB_ok hA hC hca hcc]; simp [resultOf]
  · intro e hca
    rw [handlerB_a_error hA hca]; rfl
  · intro ma e hca hcc
    rw [handlerB_c_error hA hC hca hcc]; rfl

/-- Witness for C2 at a concrete healthy request. -/
theorem c2_merge_policy_witness :
    ∃ m, resultOf (handlerB envFull 1 2 none
      (.response 200 (some okBodyA)) (.response 200 (some okBodyC))) =
      some (Except.ok m) :=
  ((c2_merge_policy envFull 1 2 none
      (.response 200 (some okBodyA)) (.response 200 (some okBodyC))
      "http://service-a:3000" "http://service-c:3000"
      (by decide) (by decide)).1).mpr
    ⟨⟨okBodyA, by decide⟩, ⟨okBodyC, by decide⟩⟩

/-- C3 counterexample: when dependency A answers 504 but the service-c
call fails (here: transport error), the aggregate does NOT return a 200
success with the placeholders — it fails with 500, refuting "never a
failure". -/
theorem c3_counterexample :
    resultOf (handlerB envFull 1 2 none (.response 504 none) .transportError) =
      some (.error INTERNAL_SERVER_ERROR) := by
  decide

/-- C3 amended: a 504 from dependency A always classifies as the fallback
model with both fields "Timed out"; provided the service-c call
classifies as success, the aggregate succeeds and its response carries
exactly those placeholder strings. -/
theorem c3_gateway_timeout_fallback (envv : Env) (ctxA ctxC : SpanCtx)
    (q : Option String) (b : Option ServiceAModel)
    (respC : HttpResponse ServiceCModel) (hostA hostC : String)
    (hA : envv "SERVICE_A_URL" = some hostA)
    (hC : envv "SERVICE_C_URL" = some hostC) :
    classifyA (.response GATEWAY_TIMEOUT b) = .ok ⟨"Timed out", "Timed out"⟩ ∧
    (∀ mc, classifyC respC = .ok mc →
      resultOf (handlerB envv ctxA ctxC q (.response GATEWAY_TIMEOUT b) respC) =
        some (.ok ⟨"Timed out", "Timed out", mc.key_time⟩)) := by
  have hsucc : isSuccess GATEWAY_TIMEOUT = false := by decide
  have ha : classifyA (.response GATEWAY_TIMEOUT b) = .ok ⟨"Timed out", "Timed out"⟩ := by
    simp [classifyA, hsucc]
  refine ⟨ha, ?_⟩
  intro mc hcc
  rw [handlerB_ok hA hC ha hcc]
  rfl

/-- Witness for C3 (amended) at a concrete request. -/
theorem c3_gateway_timeout_fallback_witness :
    resultOf (handlerB envFull 1 2 none (.response 504 none)
      (.response 200 (some okBodyC))) =
      some (.ok ⟨"Timed out", "Timed out", okBodyC.key_time⟩) :=
  (c3_gateway_timeout_fallback envFull 1 2 none none
    (.response 200 (some okBodyC)) "http://service-a:3000" "http://service-c:3000"
    (by decide) (by decide)).2 okBodyC (by decide)

/-- C6: a downstream response with a non-2xx status other than the
dependency's designated gateway-timeout status (504 for service-a; none
for service-c) classifies as a failure, and the aggregate fails with
that 400, whatever the other dependency does. -/
theorem c6_non2xx_fails (envv : Env) (ctxA ctxC : SpanCtx) (q : Option String)
    (respA : HttpResponse ServiceAModel) (respC : HttpResponse ServiceCModel)
    (hostA hostC : String)
    (hA : envv "SERVICE_A_URL" = some hostA)
    (hC : envv "SERVICE_C_URL" = some hostC) :
    (∀ st b, respA = .response st b → isSuccess st = false → st ≠ GATEWAY_TIMEOUT →
      classifyA respA = .error BAD_REQUEST ∧
      resultOf (handlerB envv ctxA ctxC q respA respC) = some (.error BAD_REQUEST)) ∧
    (∀ ma st b, classifyA respA = .ok ma → respC = .response st b →
      isSuccess st = false →
      classifyC respC = .error BAD_REQUEST ∧
      resultOf (handlerB envv ctxA ctxC q respA respC) = some (.error BAD_REQUEST)) := by
  constructor
  · intro st b hra hsucc hne
    have hca : classifyA respA = .error BAD_REQUEST := by
      subst hra; simp [classifyA, hsucc, hne]
    exact ⟨hca, by rw [handlerB_a_error hA hca]; rfl⟩
  · intro ma st b hca hrc hsucc
    have hcc : classifyC respC = .error BAD_REQUEST := by
      subst hrc; simp [classifyC, hsucc]
    exact ⟨hcc, by rw [handlerB_c_error hA hC hca hcc]; rfl⟩

/-- Witness for C6: service-a answers 500 (non-2xx, not 504) while
service-c is perfectly healthy; the aggregate still fails. -/
theorem c6_non2xx_fails_witness :
    classifyA (.response 500 none) = .error BAD_REQUEST ∧
    resultOf (handlerB envFull 1 2 none (.response 500 none)
      (.response 200 (some okBodyC))) = some (.error BAD_REQUEST) :=
  (c6_non2xx_fails envFull 1 2 none (.response 500 none)
    (.response 200 (some okBodyC)) "http://service-a:3000" "http://service-c:3000"
    (by decide) (by decide)).1 500 none rfl (by decide) (by decide)

/-- C7: classification-to-status mapping of the downstream callers — a
transport-level failure surfaces as 500 to the inbound caller; a
rejected (non-2xx) upstream status and an unparseable success body both
surface as 400.  Shown for service-b's `get_service_c` and for
service-d's handler. -/
theorem c7_error_status_mapping (envv : Env) (ctxC : SpanCtx)
    (respC : HttpResponse ServiceCModel) (respD : HttpResponse WeatherApiResponse)
    (zip : Option String) (hostC hostD keyD : String)
    (hC : envv "SERVICE_C_URL" = some hostC)
    (hU : envv "WEATHER_API_URL" = some hostD)
    (hK : envv "WEATHER_API_KEY" = some keyD) :
    (respC = .transportError →
      resultOf (get_service_c envv ctxC respC) = some (.error INTERNAL_SERVER_ERROR)) ∧
    (∀ st, respC = .response st none → isSuccess st = true →
      resultOf (get_service_c envv ctxC respC) = some (.error BAD_REQUEST)) ∧
    (∀ st b, respC = .response st b → isSuccess st = false →
      resultOf (get_service_c envv ctxC respC) = some (.error BAD_REQUEST)) ∧
    (respD = .transportError →
      resultOfD (handlerD envv false none zip respD) = some (.error INTERNAL_SERVER_ERROR)) ∧
    (∀ st, respD = .response st none → isSuccess st = true →
      resultOfD (handlerD envv false none zip respD) = some (.error BAD_REQUEST)) ∧
    (∀ st b, respD = .response st b → isSuccess st = false →
      resultOfD (handlerD envv false none zip respD) = some (.error BAD_REQUEST)) := by
  refine ⟨?_, ?_, ?_, ?_, ?_, ?_⟩
  · intro h; subst h
    simp [get_service_c, hC, classifyC, resultOf]
  · intro st h hsucc; subst h
    simp [get_service_c, hC, classifyC, hsucc, resultOf]
  · intro st b h hsucc; subst h
    simp [get_service_c, hC, classifyC, hsucc, resultOf]
  · intro h; subst h
    simp [handlerD, handlerD_core, hU, hK, classifyD, resultOfD]
  · intro st h hsucc; subst h
    simp [handlerD, handlerD_core, hU, hK, classifyD, hsucc, resultOfD]
  · intro st b h hsucc; subst h
    simp [handlerD, handlerD_core, hU, hK, classifyD, hsucc, resultOfD]

/-- Witness for C7: both dependencies unreachable at the transport level
map to 500. -/
theorem c7_error_status_mapping_witness :
    resultOf (get_service_c envFull 2 .transportError) =
      some (.error INTERNAL_SERVER_ERROR) ∧
    resultOfD (handlerD envFull false none none .transportError) =
      some (.error INTERNAL_SERVER_ERROR) :=
  ⟨(c7_error_status_mapping envFull 2 .transportError .transportError none
      "http://service-c:3000" "http://api.weatherapi.com/v1" "key123"
      (by decide) (by decide) (by decide)).1 rfl,
   (c7_error_status_mapping envFull 2 .transportError .transportError none
      "http://service-c:3000" "http://api.weatherapi.com/v1" "key123"
      (by decide) (by decide) (by decide)).2.2.2.1 rfl⟩

/-- C4 counterexample: with the downstream base URLs unset, service-b's
startup nevertheless completes (the process starts and serves), and the
missing SERVICE_A_URL is first read — and panics — during request
handling, contradicting "fails at startup" and "no required
configuration is first read during request handling". -/
theorem c4_counterexample :
    startup_service_b envNoDownstream = .done false ∧
    handlerB envNoDownstream 1 2 none (.response 200 (some okBodyA))
      (.response 200 (some okBodyC)) = .panic "SERVICE_A_URL Must be Set" := by
  decide

/-- C4 amended: only DD_TRACING_ENABLED, BIND_ADDRESS (and AGENT_ADDRESS
when tracing is on) are fatal at startup; the downstream base URLs
(SERVICE_A_URL, SERVICE_C_URL, WEATHER_API_URL) and the API key
(WEATHER_API_KEY) are read inside the request handlers, where a missing
value panics that request, after the process has started. -/
theorem c4_config_read_points (envv : Env) (ctxA ctxC : SpanCtx)
    (q zip : Option String) (respA : HttpResponse ServiceAModel)
    (respC : HttpResponse ServiceCModel) (respD : HttpResponse WeatherApiResponse) :
    (envv "DD_TRACING_ENABLED" = none →
      startup_service_b envv = .panic "DD_TRACING_ENABLED is required") ∧
    (envv "DD_TRACING_ENABLED" = some "false" → envv "BIND_ADDRESS" = none →
      startup_service_b envv = .panic "BIND_ADDRESS is required") ∧
    (envv "DD_TRACING_ENABLED" = some "true" → envv "AGENT_ADDRESS" = none →
      startup_service_b envv = .panic "AGENT_ADDRESS is required") ∧
    (envv "SERVICE_A_URL" = none →
      handlerB envv ctxA ctxC q respA respC = .panic "SERVICE_A_URL Must be Set") ∧
    (∀ hostA ma, envv "SERVICE_A_URL" = some hostA → classifyA respA = .ok ma →
      envv "SERVICE_C_URL" = none →
      handlerB envv ctxA ctxC q respA respC = .panic "SERVICE_C_URL Must be Set") ∧
    (envv "WEATHER_API_URL" = none →
      handlerD envv false none zip respD = .panic "WEATHER_API_URL Must be Set") ∧
    (∀ hostD, envv "WEATHER_API_URL" = some hostD → envv "WEATHER_API_KEY" = none →
      handlerD envv false none zip respD = .panic "WEATHER_API_KEY Must be set") := by
  refine ⟨?_, ?_, ?_, ?_, ?_, ?_, ?_⟩
  · intro h; simp [startup_service_b, h]
  · intro h1 h2
    have hf : parse_bool_flag "false" = false := by decide
    simp [startup_service_b, h1, h2, hf]
  · intro h1 h2
    have ht : parse_bool_flag "true" = true := by decide
    simp [startup_service_b, h1, h2, ht]
  · intro h; simp [handlerB, get_service_a, h]
  · intro hostA ma hA hca hC
    simp [handlerB, get_service_a, get_service_c, hA, hca, hC]
  · intro h; simp [handlerD, handlerD_core, h]
  · intro hostD h1 h2; simp [handlerD, handlerD_core, h1, h2]

/-- Witness for C4 (amended): the empty environment already fails at the
very first startup read. -/
theorem c4_config_read_points_witness :
    startup_service_b (fun _ => none) = .panic "DD_TRACING_ENABLED is required" :=
  (c4_config_read_points (fun _ => none) 1 2 none none
    (.response 200 (some okBodyA)) (.response 200 (some okBodyC))
    .transportError).1 rfl

end ConnectedServices
